import Mathlib

/-!
Verification of the geospatial route-matching engine of the Bus-Transport
project against its specification.

The backend code (`server` variants) is embedded shallowly:

* Coordinates are rational pairs; the external `geolib` distance routines
  (`getDistance`, `getDistanceFromLine`) are transcendental floating-point
  functions of a third-party library, so they are taken as explicit function
  parameters (`dist`, `distLine`) of the embedded operations.  Every theorem
  quantifying over them holds for the actual library functions in particular.
* `isPathIntersectsCircle`, `findNearbyBuses`, `geocodeLocation`, the
  coordinate-token regex of the `/api/check-availability` handler, and the
  `available` computation of the stop-matching server variant are translated
  from the source.
* `PathProvider.buildPath` does not exist in the source tree; it is modelled
  from the specification (see its doc comment).
-/

namespace BusTransport

/-- A coordinate `{lat, lng}` as used throughout the server code. -/
structure Coord where
  lat : ℚ
  lng : ℚ
deriving DecidableEq, Repr

/-- The stop period enum of the Prisma schema. -/
inductive Period where
  | MORNING
  | EVENING
deriving DecidableEq, Repr

/-- A stop record as returned by `prisma.stop` (fields used by the engine). -/
structure Stop where
  name : String
  lat : ℚ
  lng : ℚ
  period : Period
  order : ℤ
deriving DecidableEq, Repr

/-- A bus record with its stops, as returned by
`prisma.bus.findMany({include:{stops:true}})`. -/
structure Bus where
  number : String
  name : String
  location : String
  stops : List Stop
deriving DecidableEq, Repr

/-- The per-bus entry pushed into `results` by `findNearbyBuses`. -/
structure BusInfo where
  busNumber : String
  busName : String
  location : String
deriving DecidableEq, Repr

/-- Point-to-point distance function (the embedding of `geolib.getDistance`,
which the source never defines itself). -/
abbrev Dist := Coord → Coord → ℚ

/-- Point-to-segment distance function (the embedding of
`geolib.getDistanceFromLine center a b`, clamped to the segment). -/
abbrev DistLine := Coord → Coord → Coord → ℚ

/-- The consecutive pairs `(path[i], path[i+1])` visited by the second loop of
`isPathIntersectsCircle`. -/
def segPairs : List Coord → List (Coord × Coord)
  | a :: b :: t => (a, b) :: segPairs (b :: t)
  | _ => []

/-- Embedding of `isPathIntersectsCircle(userLocation, path, radiusMeters)` from
the server source: first loop returns true as soon as some path point is within
`radiusMeters` of the center (`getDistance(p, center) <= radiusMeters`); the
second loop returns true as soon as some consecutive segment is within
`radiusMeters` (`getDistanceFromLine(center, a, b) <= radiusMeters`);
otherwise false. -/
def isPathIntersectsCircle (dist : Dist) (distLine : DistLine)
    (userLocation : Coord) (path : List Coord) (radiusMeters : ℚ) : Bool :=
  path.any (fun p => decide (dist p userLocation ≤ radiusMeters)) ||
  (segPairs path).any (fun ab => decide (distLine userLocation ab.1 ab.2 ≤ radiusMeters))

/-- Insertion step of the by-`order` sort applied to each period's stop list
(`.sort((a, b) => a.order - b.order)` in the source). -/
def insertByOrder (s : Stop) : List Stop → List Stop
  | [] => [s]
  | t :: ts => if s.order ≤ t.order then s :: t :: ts else t :: insertByOrder s ts

/-- Sorting a period's stop list ascending by `order`. -/
def sortByOrder : List Stop → List Stop
  | [] => []
  | s :: ts => insertByOrder s (sortByOrder ts)

/-- The `checkStops` closure of `findNearbyBuses`: true iff some stop of the
list is within `radiusMeters` of the user location
(`getDistance(userLocation, s) <= radiusMeters`). -/
def checkStops (dist : Dist) (userLocation : Coord) (radiusMeters : ℚ)
    (stops : List Stop) : Bool :=
  stops.any (fun s => decide (dist userLocation ⟨s.lat, s.lng⟩ ≤ radiusMeters))

/-- The per-bus test of `findNearbyBuses`: the bus's stops are partitioned into
the MORNING and EVENING lists, each sorted by `order`, and the bus matches iff
`checkStops(morningStops) || checkStops(eveningStops)`. -/
def busMatches (dist : Dist) (userLocation : Coord) (radiusMeters : ℚ)
    (bus : Bus) : Bool :=
  checkStops dist userLocation radiusMeters
      (sortByOrder (bus.stops.filter (fun s => decide (s.period = Period.MORNING)))) ||
  checkStops dist userLocation radiusMeters
      (sortByOrder (bus.stops.filter (fun s => decide (s.period = Period.EVENING))))

/-- Embedding of `findNearbyBuses(userLocation, radiusKm)` from the server source: with
`radiusMeters = radiusKm * 1000`, a bus is pushed onto `results` (as
`{busNumber, busName, location}`) iff `busMatches` holds.  No path is built
and `isPathIntersectsCircle` is never invoked by this function. -/
def findNearbyBuses (dist : Dist) (userLocation : Coord) (radiusKm : ℚ)
    (buses : List Bus) : List BusInfo :=
  (buses.filter (busMatches dist userLocation (radiusKm * 1000))).map
    (fun bus => ⟨bus.number, bus.name, bus.location⟩)

/-- Modelled from the spec: `PathProvider.buildPath` does not exist in the
source tree (the backend never builds route paths; only the frontend map
renderer draws a straight polyline through the stop coordinates when the
directions provider fails).  Per spec §4.3: a single stop yields the trivial
one-point path; otherwise the directions provider is queried and, on any
failure (modelled as the provider returning `none`), the ordered list of input
stop coordinates is the path.  The function is total, so it cannot raise. -/
def buildPath (provider : List Coord → Option (List Coord))
    (stops : List Coord) : List Coord :=
  match stops with
  | [] => []
  | [c] => [c]
  | _ =>
    match provider stops with
    | some path => path
    | none => stops

/-- The taxicab surrogate distance (meters-per-degree scale) used to
instantiate the abstract `geolib` distance parameter at concrete inputs. -/
def taxiDist : Dist := fun p q => (|p.lat - q.lat| + |p.lng - q.lng|) * 111000

/-- A concrete point-to-segment distance surrogate: the minimum of the
distances to the two endpoints and to the segment midpoint.  At the inputs
used below it agrees with the clamped point-to-segment distance. -/
def taxiSegDist : DistLine := fun c a b =>
  min (min (taxiDist c a) (taxiDist c b))
    (taxiDist c ⟨(a.lat + b.lat) / 2, (a.lng + b.lng) / 2⟩)

/-- The bus used to refute claim C1: two MORNING stops one degree of latitude
away from the user on either side, so that the straight-line path between them
passes through the user's location. -/
def c1Bus : Bus :=
  { number := "7", name := "Bus 7", location := "L",
    stops := [⟨"A", 0, 0, Period.MORNING, 1⟩, ⟨"C", 0, 2, Period.MORNING, 2⟩] }

/-- The whitespace class of the location regex (the ASCII part of `\s`). -/
def isSpaceChar (c : Char) : Bool :=
  (c == ' ') || (c == '\t') || (c == '\n') || (c == '\r') || (c == '\x0b') || (c == '\x0c')

/-- The digit class `\d` of the location regex. -/
def isDigitChar (c : Char) : Bool :=
  ('0' ≤ c) && (c ≤ '9')

/-- Decimal value of a digit string. -/
def digitsToNat (ds : List Char) : ℕ :=
  ds.foldl (fun acc c => 10 * acc + (c.toNat - '0'.toNat)) 0

/-- The value `parseFloat` gives to a matched number group: optional sign,
integer digits, optional fractional digits. -/
def numValue (neg : Bool) (intDs fracDs : List Char) : ℚ :=
  (if neg then -1 else 1) *
    ((digitsToNat intDs : ℚ) + (digitsToNat fracDs : ℚ) / 10 ^ fracDs.length)

/-- One number group `-?\d+\.?\d*` of the location regex, returning its
`parseFloat` value and the unconsumed remainder (`none` if the group does not
match at the start of `s`). -/
def parseNumber (s : List Char) : Option (ℚ × List Char) :=
  let neg : Bool := decide (s.head? = some '-')
  let s1 := if neg then s.tail else s
  let ds := s1.takeWhile isDigitChar
  let r1 := s1.dropWhile isDigitChar
  if ds = [] then none
  else if r1.head? = some '.' then
    some (numValue neg ds (r1.tail.takeWhile isDigitChar), r1.tail.dropWhile isDigitChar)
  else some (numValue neg ds [], r1)

/-- The location-token regex `^\s*(-?\d+\.?\d*),\s*(-?\d+\.?\d*)\s*$` of the
`/api/check-availability` handler, with the `parseFloat` values of the two
capture groups. -/
def parseLocList (s : List Char) : Option (ℚ × ℚ) :=
  match parseNumber (s.dropWhile isSpaceChar) with
  | none => none
  | some (q1, r) =>
    if r.head? = some ',' then
      match parseNumber (r.tail.dropWhile isSpaceChar) with
      | none => none
      | some (q2, r4) =>
        if r4.dropWhile isSpaceChar = [] then some (q1, q2) else none
    else none

/-- String-level entry point of the coordinate-token parser. -/
def parseLocation (s : String) : Option (ℚ × ℚ) :=
  parseLocList s.toList

/-- Rendering of one number group: optional minus sign, integer digits,
optional dot followed by fractional digits. -/
def renderNum (neg : Bool) (intDs : List Char) (fracDs : Option (List Char)) : List Char :=
  (if neg then ['-'] else []) ++ intDs ++
    (match fracDs with
      | none => []
      | some f => '.' :: f)

/-- The `parseFloat` value of a rendered number group. -/
def renderVal (neg : Bool) (intDs : List Char) (fracDs : Option (List Char)) : ℚ :=
  numValue neg intDs (fracDs.getD [])

/-- Embedding of `validateCoordinates(lat, lng)` from the server source. -/
def validateCoordinates (c : Coord) : Bool :=
  decide (-90 ≤ c.lat) && decide (c.lat ≤ 90) &&
  decide (-180 ≤ c.lng) && decide (c.lng ≤ 180)

/-- Embedding of `validateEmail(email)` from the server source: the regex
`^[^\s@]+@[^\s@]+\.[^\s@]+$`, i.e. a nonempty space-free at-free local part,
one `@`, and a space-free at-free domain containing an interior dot. -/
def validateEmail (email : String) : Bool :=
  let cs := email.toList
  let a := cs.takeWhile (fun c => !(c == '@'))
  match cs.dropWhile (fun c => !(c == '@')) with
  | '@' :: b =>
    !a.isEmpty && a.all (fun c => !isSpaceChar c) &&
    !b.isEmpty && b.all (fun c => !(c == '@') && !isSpaceChar c) &&
    (b.drop 1).dropLast.contains '.'
  | _ => false

/-- The possible JSON responses of the `/api/check-availability` handler. -/
inductive Resp where
  | badRequest (msg : String)
  | okUnavailable (msg : String)
  | okAvailable (count : ℕ) (buses : List BusInfo)
  | serverError (msg : String)
deriving DecidableEq, Repr

/-- The location-resolution step of the handler: a token matching the
coordinate regex is parsed directly, any other token is sent to
`geocodeLocation` (whose failures — missing key, network error, non-OK
status, malformed payload — are modelled by the geocoder returning
`none`). -/
def resolveUserLocation (geocoder : String → Option Coord) (location : String) :
    Option Coord :=
  match parseLocation location with
  | some (la, ln) => some ⟨la, ln⟩
  | none => geocoder location

/-- The `/api/check-availability` handler of the `findNearbyBuses` server
variant: missing fields and invalid email give 400 responses; a geocoding
failure throws and is caught by the handler's catch-all, producing the
generic 500 `Internal Server Error`; invalid coordinates give 400; otherwise
the result of `findNearbyBuses` decides between the unavailable message and
the bus list. -/
def checkAvailability (dist : Dist) (geocoder : String → Option Coord)
    (radiusKm : ℚ) (buses : List Bus) (email location : String) : Resp :=
  if email = "" ∨ location = "" then .badRequest "Email and location required"
  else if !validateEmail email then .badRequest "Invalid email format"
  else
    match resolveUserLocation geocoder location with
    | none => .serverError "Internal Server Error"
    | some u =>
      if !validateCoordinates u then .badRequest "Invalid coordinates"
      else
        let nearby := findNearbyBuses dist u radiusKm buses
        if nearby.isEmpty then
          .okUnavailable "Within 1.5 km radius, no college bus route passes your location."
        else .okAvailable nearby.length nearby

/-- Embedding of `geocodeLocation(name)` from the server source, with an explicit count of
upstream provider calls: without an API key it throws immediately (no call);
with a key it performs exactly one HTTPS request whose outcome is the
provider's answer.  No cache of any kind exists in the source. -/
def geocodeLocation (hasKey : Bool) (provider : String → Option Coord)
    (name : String) : Option Coord × ℕ :=
  if hasKey then (provider name, 1) else (none, 0)

/-- Total number of upstream provider calls made by a sequence of
`geocodeLocation` lookups. -/
def upstreamCalls (hasKey : Bool) (provider : String → Option Coord)
    (lookups : List String) : ℕ :=
  (lookups.map (fun n => (geocodeLocation hasKey provider n).2)).sum

/-- A bus record of the stop-matching server variant (`server.js`), with the
nullable capacity fields used by the availability computation. -/
structure BusRec where
  number : String
  capacity : Option ℤ
  currentOccupancy : Option ℤ
deriving DecidableEq, Repr

/-- A stop row joined with its bus, as returned by
`prisma.stop.findMany({include:{bus:true}})`. -/
structure StopRec where
  name : String
  lat : ℚ
  lng : ℚ
  bus : BusRec
deriving DecidableEq, Repr

/-- One element of the `buses` array in the availability response. -/
structure AvailBus where
  busNumber : String
  distanceMeters : Option ℚ
  capacity : Option ℤ
  currentOccupancy : Option ℤ
deriving DecidableEq, Repr

/-- JavaScript `Map.set` on an association list: update in place if the key
exists (keeping its position), else append. -/
def mapSet {β : Type} (k : String) (v : β) :
    List (String × β) → List (String × β)
  | [] => [(k, v)]
  | (k', v') :: t => if k' = k then (k, v) :: t else (k', v') :: mapSet k v t

/-- The coordinate branch of the stop-matching `/api/check-availability`
handler: every stop within `radiusMeters` of the user inserts its bus into
the `matched` map keyed by bus number. -/
def matchedEntries (dist : Dist) (userCoords : Coord) (radiusMeters : ℚ)
    (stops : List StopRec) : List (String × (BusRec × ℚ)) :=
  stops.foldl
    (fun m s =>
      if dist userCoords ⟨s.lat, s.lng⟩ ≤ radiusMeters then
        mapSet s.bus.number (s.bus, dist userCoords ⟨s.lat, s.lng⟩) m
      else m)
    []

/-- The `buses` array of the availability response (coordinate branch). -/
def availabilityBuses (dist : Dist) (userCoords : Coord) (radiusMeters : ℚ)
    (stops : List StopRec) : List AvailBus :=
  (matchedEntries dist userCoords radiusMeters stops).map
    (fun e => ⟨e.2.1.number, some e.2.2, e.2.1.capacity, e.2.1.currentOccupancy⟩)

/-- The top-level `available` flag:
`buses.some(b => Number(b.capacity || 0) > Number(b.currentOccupancy || 0))`. -/
def availableFlag (dist : Dist) (userCoords : Coord) (radiusMeters : ℚ)
    (stops : List StopRec) : Bool :=
  (availabilityBuses dist userCoords radiusMeters stops).any
    (fun b => decide (b.currentOccupancy.getD 0 < b.capacity.getD 0))

/-- The stop used to illustrate "matched but full" for claim C10: the user
stands on the stop of a bus whose occupancy equals its capacity. -/
def c10Stop : StopRec :=
  { name := "S", lat := 0, lng := 0,
    bus := { number := "9", capacity := some 10, currentOccupancy := some 10 } }

end BusTransport

namespace BusTransport

/-- Claim C3: for every radius `r ≥ 0`, every circle and every path, if some
path point has distance `≤ r` to the center, then `isPathIntersectsCircle`
returns true (the point test fires), for any distance routines. -/
theorem C3_point_within_radius_implies_intersects
    (dist : Dist) (distLine : DistLine) (center : Coord) (path : List Coord)
    (r : ℚ) (p : Coord) (_hr : 0 ≤ r) (hmem : p ∈ path)
    (hd : dist p center ≤ r) :
    isPathIntersectsCircle dist distLine center path r = true := by
  unfold isPathIntersectsCircle
  rw [Bool.or_eq_true, List.any_eq_true]
  exact Or.inl ⟨p, hmem, by simpa using hd⟩

/-- Witness for C3 at a concrete input: the one-point path `[(0,0)]` with a
zero distance function intersects the circle of radius `1` around `(0,0)`. -/
theorem C3_point_within_radius_implies_intersects_witness :
    isPathIntersectsCircle (fun _ _ => (0 : ℚ)) (fun _ _ _ => (0 : ℚ))
      ⟨0, 0⟩ [⟨0, 0⟩] 1 = true :=
  C3_point_within_radius_implies_intersects
    (fun _ _ => (0 : ℚ)) (fun _ _ _ => (0 : ℚ)) ⟨0, 0⟩ [⟨0, 0⟩] 1 ⟨0, 0⟩
    (by norm_num) (by simp) (by norm_num)

/-- Claim C8: `isPathIntersectsCircle` returns false on the empty path, and on
a one-point path it is decided by the point test alone (no segment pair
exists), for any distance routines. -/
theorem C8_empty_and_singleton_paths
    (dist : Dist) (distLine : DistLine) (center : Coord) (r : ℚ) (p : Coord) :
    isPathIntersectsCircle dist distLine center [] r = false ∧
    isPathIntersectsCircle dist distLine center [p] r
      = decide (dist p center ≤ r) := by
  constructor
  · rfl
  · simp [isPathIntersectsCircle, segPairs]

/-- Claim C9: the path-intersection test is monotone in the radius: if it
returns true at radius `r` and `r ≤ r'`, it returns true at `r'`, for any
distance routines. -/
theorem C9_monotone_in_radius
    (dist : Dist) (distLine : DistLine) (center : Coord) (path : List Coord)
    (r r' : ℚ) (hle : r ≤ r')
    (h : isPathIntersectsCircle dist distLine center path r = true) :
    isPathIntersectsCircle dist distLine center path r' = true := by
  unfold isPathIntersectsCircle at h ⊢
  rw [Bool.or_eq_true, List.any_eq_true] at h ⊢
  rcases h with ⟨p, hp, hd⟩ | h
  · exact Or.inl ⟨p, hp, by simp only [decide_eq_true_eq] at hd ⊢; exact hd.trans hle⟩
  · rw [List.any_eq_true] at h
    rcases h with ⟨ab, hab, hd⟩
    refine Or.inr ?_
    rw [List.any_eq_true]
    exact ⟨ab, hab, by simp only [decide_eq_true_eq] at hd ⊢; exact hd.trans hle⟩

/-- Witness for C9 at a concrete input: a hit at radius `1` is preserved at
radius `2`. -/
theorem C9_monotone_in_radius_witness :
    isPathIntersectsCircle (fun _ _ => (0 : ℚ)) (fun _ _ _ => (0 : ℚ))
      ⟨0, 0⟩ [⟨0, 0⟩] 2 = true :=
  C9_monotone_in_radius (fun _ _ => (0 : ℚ)) (fun _ _ _ => (0 : ℚ))
    ⟨0, 0⟩ [⟨0, 0⟩] 1 2 (by norm_num) (by simp [isPathIntersectsCircle])

/-- Claim C2: for a segment whose two endpoints both lie strictly outside the
circle, `isPathIntersectsCircle` returns true exactly when the point-to-segment
distance routine (the embedding of `geolib.getDistanceFromLine`, which clamps
to the segment) reports a distance `≤ r`. -/
theorem C2_segment_test_decides
    (dist : Dist) (distLine : DistLine) (center : Coord) (a b : Coord) (r : ℚ)
    (ha : r < dist a center) (hb : r < dist b center) :
    (isPathIntersectsCircle dist distLine center [a, b] r = true ↔
      distLine center a b ≤ r) := by
  simp only [isPathIntersectsCircle, segPairs, List.any_cons, List.any_nil,
    Bool.or_eq_true, Bool.or_false, decide_eq_true_eq]
  constructor
  · intro h
    rcases h with (h | h) | h
    · exact absurd h (not_le.mpr ha)
    · exact absurd h (not_le.mpr hb)
    · exact h
  · exact fun h => Or.inr h

/-- Witness for C2 at a concrete input: endpoints at distance `2` from the
center, segment distance `0`, radius `1`. -/
theorem C2_segment_test_decides_witness :
    isPathIntersectsCircle (fun _ _ => (2 : ℚ)) (fun _ _ _ => (0 : ℚ))
      ⟨0, 0⟩ [⟨0, 1⟩, ⟨0, 2⟩] 1 = true ↔ ((0 : ℚ) ≤ 1) :=
  C2_segment_test_decides (fun _ _ => (2 : ℚ)) (fun _ _ _ => (0 : ℚ))
    ⟨0, 0⟩ ⟨0, 1⟩ ⟨0, 2⟩ 1 (by norm_num) (by norm_num)

end BusTransport

namespace BusTransport

lemma mem_insertByOrder (x s : Stop) (l : List Stop) :
    x ∈ insertByOrder s l ↔ x = s ∨ x ∈ l := by
  induction l with
  | nil => simp [insertByOrder]
  | cons t ts ih =>
    by_cases h : s.order ≤ t.order
    · simp [insertByOrder, h]
    · simp only [insertByOrder, if_neg h, List.mem_cons, ih]
      tauto

lemma mem_sortByOrder (x : Stop) (l : List Stop) : x ∈ sortByOrder l ↔ x ∈ l := by
  induction l with
  | nil => simp [sortByOrder]
  | cons s ts ih => simp [sortByOrder, mem_insertByOrder, ih]

lemma checkStops_sort_eq_true (dist : Dist) (u : Coord) (r : ℚ) (l : List Stop) :
    checkStops dist u r (sortByOrder l) = true ↔
      ∃ s ∈ l, dist u ⟨s.lat, s.lng⟩ ≤ r := by
  simp [checkStops, List.any_eq_true, mem_sortByOrder]

lemma busMatches_eq_true (dist : Dist) (u : Coord) (r : ℚ) (bus : Bus) :
    busMatches dist u r bus = true ↔
      ∃ s ∈ bus.stops, dist u ⟨s.lat, s.lng⟩ ≤ r := by
  simp only [busMatches, Bool.or_eq_true, checkStops_sort_eq_true, List.mem_filter,
    decide_eq_true_eq]
  constructor
  · rintro (⟨s, ⟨hs, _⟩, hd⟩ | ⟨s, ⟨hs, _⟩, hd⟩) <;> exact ⟨s, hs, hd⟩
  · rintro ⟨s, hs, hd⟩
    cases hper : s.period
    · exact Or.inl ⟨s, ⟨hs, hper⟩, hd⟩
    · exact Or.inr ⟨s, ⟨hs, hper⟩, hd⟩

/-- Counterexample to claim C1: the straight-line fallback path of `c1Bus`'s
MORNING stop list intersects the circle of radius `1 * 1000` meters around the
user at `(0, 1)` (the segment passes through the center), yet
`findNearbyBuses` does not report the bus, because it only ever checks
per-stop distances and never performs the path-intersection test. -/
theorem C1_counterexample :
    isPathIntersectsCircle taxiDist taxiSegDist ⟨0, 1⟩
      (buildPath (fun _ => none)
        ((sortByOrder (c1Bus.stops.filter
            (fun s => decide (s.period = Period.MORNING)))).map
          (fun s => ⟨s.lat, s.lng⟩)))
      (1 * 1000) = true
    ∧ findNearbyBuses taxiDist ⟨0, 1⟩ 1 [c1Bus] = [] := by
  constructor
  · norm_num [isPathIntersectsCircle, segPairs, buildPath, c1Bus, sortByOrder,
      insertByOrder, taxiDist, taxiSegDist]
  · norm_num [findNearbyBuses, busMatches, checkStops, c1Bus, sortByOrder,
      insertByOrder, taxiDist]

/-- Claim C1 amended: `findNearbyBuses` includes a bus in its result exactly
when some of its stops (of either period) lies within `radiusKm * 1000` meters
of the user location; it builds no path and never consults
`isPathIntersectsCircle`, so a route that merely curves through the circle
between stops is not matched and no `nearbyStopCount` is reported. -/
theorem C1_amended_stop_distance_only (dist : Dist) (u : Coord) (radiusKm : ℚ)
    (buses : List Bus) (b : BusInfo) :
    b ∈ findNearbyBuses dist u radiusKm buses ↔
      ∃ bus ∈ buses, (⟨bus.number, bus.name, bus.location⟩ : BusInfo) = b ∧
        ∃ s ∈ bus.stops, dist u ⟨s.lat, s.lng⟩ ≤ radiusKm * 1000 := by
  simp only [findNearbyBuses, List.mem_map, List.mem_filter, busMatches_eq_true]
  constructor
  · rintro ⟨bus, ⟨hbus, s, hs, hd⟩, rfl⟩
    exact ⟨bus, hbus, rfl, s, hs, hd⟩
  · rintro ⟨bus, hbus, rfl, s, hs, hd⟩
    exact ⟨bus, ⟨hbus, s, hs, hd⟩, rfl⟩

/-- Claim C5 (spec-modelled): on provider failure, `buildPath` returns the
ordered list of input stop coordinates: the result equals the input list, so
its length is the stop count and its first and last points are the origin and
destination coordinates.  Totality of the definition reflects that it never
raises. -/
theorem C5_buildPath_fallback (provider : List Coord → Option (List Coord))
    (stops : List Coord) (hne : stops ≠ []) (hfail : provider stops = none) :
    buildPath provider stops = stops ∧
    (buildPath provider stops).length = stops.length ∧
    (buildPath provider stops).head? = stops.head? ∧
    (buildPath provider stops).getLast? = stops.getLast? := by
  have h : buildPath provider stops = stops := by
    match stops with
    | [] => exact absurd rfl hne
    | [c] => rfl
    | a :: b :: t => simp [buildPath, hfail]
  exact ⟨h, by rw [h], by rw [h], by rw [h]⟩

/-- Witness for C5 at a concrete input: a two-stop list with a failing
provider falls back to the stop coordinates. -/
theorem C5_buildPath_fallback_witness :
    buildPath (fun _ => none) [(⟨0, 0⟩ : Coord), ⟨0, 2⟩] = [⟨0, 0⟩, ⟨0, 2⟩] ∧
    (buildPath (fun _ => none) [(⟨0, 0⟩ : Coord), ⟨0, 2⟩]).length
      = [(⟨0, 0⟩ : Coord), ⟨0, 2⟩].length ∧
    (buildPath (fun _ => none) [(⟨0, 0⟩ : Coord), ⟨0, 2⟩]).head?
      = [(⟨0, 0⟩ : Coord), ⟨0, 2⟩].head? ∧
    (buildPath (fun _ => none) [(⟨0, 0⟩ : Coord), ⟨0, 2⟩]).getLast?
      = [(⟨0, 0⟩ : Coord), ⟨0, 2⟩].getLast? :=
  C5_buildPath_fallback (fun _ => none) [⟨0, 0⟩, ⟨0, 2⟩] (by simp) rfl

end BusTransport

namespace BusTransport

lemma isSpaceChar_cases {c : Char} (h : isSpaceChar c = true) :
    c = ' ' ∨ c = '\t' ∨ c = '\n' ∨ c = '\r' ∨ c = '\x0b' ∨ c = '\x0c' := by
  simp only [isSpaceChar, Bool.or_eq_true, beq_iff_eq] at h
  tauto

lemma space_props {c : Char} (h : isSpaceChar c = true) :
    isDigitChar c = false ∧ c ≠ '.' ∧ c ≠ ',' := by
  rcases isSpaceChar_cases h with rfl | rfl | rfl | rfl | rfl | rfl <;>
    exact ⟨rfl, by decide, by decide⟩

lemma digit_not_space {c : Char} (h : isDigitChar c = true) : isSpaceChar c = false := by
  rcases Bool.eq_false_or_eq_true (isSpaceChar c) with h1 | h1
  · rw [(space_props h1).1] at h
    exact absurd h (by simp)
  · exact h1

lemma digit_ne_minus {c : Char} (h : isDigitChar c = true) : c ≠ '-' := by
  rintro rfl
  exact absurd h (by decide)

lemma takeWhile_append_all {α : Type} {p : α → Bool} {xs ys : List α}
    (h : ∀ x ∈ xs, p x = true) :
    (xs ++ ys).takeWhile p = xs ++ ys.takeWhile p := by
  induction xs with
  | nil => simp
  | cons a t ih =>
    have ha : p a = true := h a (by simp)
    simp only [List.cons_append, List.takeWhile_cons, ha, if_true]
    rw [ih (fun x hx => h x (by simp [hx]))]

lemma dropWhile_append_all {α : Type} {p : α → Bool} {xs ys : List α}
    (h : ∀ x ∈ xs, p x = true) :
    (xs ++ ys).dropWhile p = ys.dropWhile p := by
  induction xs with
  | nil => simp
  | cons a t ih =>
    have ha : p a = true := h a (by simp)
    simp only [List.cons_append, List.dropWhile_cons, ha, if_true]
    exact ih (fun x hx => h x (by simp [hx]))

lemma takeWhile_head_false {α : Type} {p : α → Bool} {ys : List α}
    (h : ∀ c, ys.head? = some c → p c = false) : ys.takeWhile p = [] := by
  cases ys with
  | nil => rfl
  | cons a t => simp [List.takeWhile_cons, h a rfl]

lemma dropWhile_head_false {α : Type} {p : α → Bool} {ys : List α}
    (h : ∀ c, ys.head? = some c → p c = false) : ys.dropWhile p = ys := by
  cases ys with
  | nil => rfl
  | cons a t => simp [List.dropWhile_cons, h a rfl]

lemma takeWhile_exact {α : Type} {p : α → Bool} {xs ys : List α}
    (hall : ∀ x ∈ xs, p x = true) (hstop : ∀ c, ys.head? = some c → p c = false) :
    (xs ++ ys).takeWhile p = xs := by
  rw [takeWhile_append_all hall, takeWhile_head_false hstop, List.append_nil]

lemma dropWhile_exact {α : Type} {p : α → Bool} {xs ys : List α}
    (hall : ∀ x ∈ xs, p x = true) (hstop : ∀ c, ys.head? = some c → p c = false) :
    (xs ++ ys).dropWhile p = ys := by
  rw [dropWhile_append_all hall, dropWhile_head_false hstop]

lemma dropWhile_all {α : Type} {p : α → Bool} {xs : List α}
    (hall : ∀ x ∈ xs, p x = true) : xs.dropWhile p = [] := by
  induction xs with
  | nil => rfl
  | cons a t ih =>
    have ha : p a = true := hall a (by simp)
    simp only [List.dropWhile_cons, ha, if_true]
    exact ih (fun x hx => hall x (by simp [hx]))

end BusTransport

namespace BusTransport

lemma parseNumber_render (neg : Bool) (d : List Char) (f : Option (List Char))
    (rest : List Char) (hd : d ≠ [])
    (hdd : ∀ c ∈ d, isDigitChar c = true)
    (hf : ∀ c ∈ f.getD [], isDigitChar c = true)
    (hrest : ∀ c, rest.head? = some c → isDigitChar c = false ∧ c ≠ '.') :
    parseNumber (renderNum neg d f ++ rest) = some (renderVal neg d f, rest) := by
  have hneg : ∀ X : List Char, ¬ ((d ++ X).head? = some '-') := by
    intro X hcon
    rcases d with _ | ⟨a, t⟩
    · exact hd rfl
    · have ha : a = '-' := by simpa using hcon
      exact digit_ne_minus (hdd a (by simp)) ha
  rcases f with _ | fr
  · have htake : (d ++ rest).takeWhile isDigitChar = d :=
      takeWhile_exact hdd (fun c hc => (hrest c hc).1)
    have hdrop : (d ++ rest).dropWhile isDigitChar = rest :=
      dropWhile_exact hdd (fun c hc => (hrest c hc).1)
    have hdot : ¬ (rest.head? = some '.') := by
      intro hcon
      cases rest with
      | nil => simp at hcon
      | cons a t =>
        have ha : a = '.' := by simpa using hcon
        exact (hrest a rfl).2 ha
    cases neg
    · have h1 : renderNum false d none ++ rest = d ++ rest := by simp [renderNum]
      rw [h1]
      simp only [parseNumber]
      rw [decide_eq_false (hneg rest)]
      simp [htake, hdrop, hd, hdot, renderVal]
    · have h1 : renderNum true d none ++ rest = '-' :: (d ++ rest) := by simp [renderNum]
      rw [h1]
      simp only [parseNumber]
      simp [htake, hdrop, hd, hdot, renderVal]
  · have hfr : ∀ c ∈ fr, isDigitChar c = true := by simpa using hf
    have hstop : ∀ c, ('.' :: (fr ++ rest)).head? = some c → isDigitChar c = false := by
      intro c hc
      have hc' : '.' = c := by simpa using hc
      subst hc'
      rfl
    have htake : (d ++ ('.' :: (fr ++ rest))).takeWhile isDigitChar = d :=
      takeWhile_exact hdd hstop
    have hdrop : (d ++ ('.' :: (fr ++ rest))).dropWhile isDigitChar = '.' :: (fr ++ rest) :=
      dropWhile_exact hdd hstop
    have htake2 : (fr ++ rest).takeWhile isDigitChar = fr :=
      takeWhile_exact hfr (fun c hc => (hrest c hc).1)
    have hdrop2 : (fr ++ rest).dropWhile isDigitChar = rest :=
      dropWhile_exact hfr (fun c hc => (hrest c hc).1)
    cases neg
    · have h1 : renderNum false d (some fr) ++ rest = d ++ ('.' :: (fr ++ rest)) := by
        simp [renderNum]
      rw [h1]
      simp only [parseNumber]
      rw [decide_eq_false (hneg ('.' :: (fr ++ rest)))]
      simp [htake, hdrop, hd, htake2, hdrop2, renderVal]
    · have h1 : renderNum true d (some fr) ++ rest = '-' :: (d ++ ('.' :: (fr ++ rest))) := by
        simp [renderNum]
      rw [h1]
      simp only [parseNumber]
      simp [htake, hdrop, hd, htake2, hdrop2, renderVal]

end BusTransport

namespace BusTransport

lemma dropWhile_space_renderNum (ws : List Char)
    (hw : ∀ c ∈ ws, isSpaceChar c = true)
    (neg : Bool) (d : List Char) (f : Option (List Char)) (X : List Char)
    (hd : d ≠ []) (hdd : ∀ c ∈ d, isDigitChar c = true) :
    (ws ++ (renderNum neg d f ++ X)).dropWhile isSpaceChar = renderNum neg d f ++ X := by
  apply dropWhile_exact hw
  intro c hc
  rcases d with _ | ⟨a, t⟩
  · exact absurd rfl hd
  cases neg
  · have ha : (renderNum false (a :: t) f ++ X).head? = some a := by simp [renderNum]
    rw [ha] at hc
    have hac : a = c := by simpa using hc
    subst hac
    exact digit_not_space (hdd a (by simp))
  · have ha : (renderNum true (a :: t) f ++ X).head? = some '-' := by simp [renderNum]
    rw [ha] at hc
    have hac : '-' = c := by simpa using hc
    subst hac
    rfl

lemma parseLocList_pattern
    (ws1 ws2 ws3 : List Char)
    (hw1 : ∀ c ∈ ws1, isSpaceChar c = true)
    (hw2 : ∀ c ∈ ws2, isSpaceChar c = true)
    (hw3 : ∀ c ∈ ws3, isSpaceChar c = true)
    (neg1 neg2 : Bool) (d1 d2 : List Char) (f1 f2 : Option (List Char))
    (hd1 : d1 ≠ []) (hdd1 : ∀ c ∈ d1, isDigitChar c = true)
    (hf1 : ∀ c ∈ f1.getD [], isDigitChar c = true)
    (hd2 : d2 ≠ []) (hdd2 : ∀ c ∈ d2, isDigitChar c = true)
    (hf2 : ∀ c ∈ f2.getD [], isDigitChar c = true) :
    parseLocList
        (ws1 ++ (renderNum neg1 d1 f1 ++
          (',' :: (ws2 ++ (renderNum neg2 d2 f2 ++ ws3)))))
      = some (renderVal neg1 d1 f1, renderVal neg2 d2 f2) := by
  have h1 := dropWhile_space_renderNum ws1 hw1 neg1 d1 f1
    (',' :: (ws2 ++ (renderNum neg2 d2 f2 ++ ws3))) hd1 hdd1
  have hrest1 : ∀ c, (',' :: (ws2 ++ (renderNum neg2 d2 f2 ++ ws3))).head? = some c →
      isDigitChar c = false ∧ c ≠ '.' := by
    intro c hc
    have hcc : ',' = c := by simpa using hc
    subst hcc
    exact ⟨rfl, by decide⟩
  have h2 := parseNumber_render neg1 d1 f1
    (',' :: (ws2 ++ (renderNum neg2 d2 f2 ++ ws3))) hd1 hdd1 hf1 hrest1
  have h3 := dropWhile_space_renderNum ws2 hw2 neg2 d2 f2 ws3 hd2 hdd2
  have hrest2 : ∀ c, ws3.head? = some c → isDigitChar c = false ∧ c ≠ '.' := by
    intro c hc
    cases ws3 with
    | nil => simp at hc
    | cons a t =>
      have hac : a = c := by simpa using hc
      subst hac
      have hs := hw3 a (by simp)
      exact ⟨(space_props hs).1, (space_props hs).2.1⟩
  have h4 := parseNumber_render neg2 d2 f2 ws3 hd2 hdd2 hf2 hrest2
  have h5 : ws3.dropWhile isSpaceChar = [] := dropWhile_all hw3
  simp only [parseLocList, h1, h2]
  simp [h3, h4, h5]

end BusTransport

namespace BusTransport

/-- Claim C4: a token of shape whitespace, number, comma, whitespace, number,
whitespace — each number with optional minus sign, mandatory integer digits
and optional decimal part — parses directly to the pair of `parseFloat`
values; in particular `16.5062,80.6480` parses to `(16.5062, 80.6480)`, the
variant with a space after the comma parses identically, and `abc` is not
parsed as a coordinate and is instead routed to the geocoder. -/
theorem C4_location_token_parsing :
    (∀ (ws1 ws2 ws3 : List Char) (neg1 neg2 : Bool) (d1 d2 : List Char)
        (f1 f2 : Option (List Char)),
      (∀ c ∈ ws1, isSpaceChar c = true) →
      (∀ c ∈ ws2, isSpaceChar c = true) →
      (∀ c ∈ ws3, isSpaceChar c = true) →
      d1 ≠ [] → (∀ c ∈ d1, isDigitChar c = true) →
      (∀ c ∈ f1.getD [], isDigitChar c = true) →
      d2 ≠ [] → (∀ c ∈ d2, isDigitChar c = true) →
      (∀ c ∈ f2.getD [], isDigitChar c = true) →
      parseLocList
          (ws1 ++ (renderNum neg1 d1 f1 ++
            (',' :: (ws2 ++ (renderNum neg2 d2 f2 ++ ws3)))))
        = some (renderVal neg1 d1 f1, renderVal neg2 d2 f2)) ∧
    parseLocation "16.5062,80.6480" = some (16.5062, 80.6480) ∧
    parseLocation "16.5062, 80.6480" = some (16.5062, 80.6480) ∧
    parseLocation "abc" = none ∧
    (∀ geocoder : String → Option Coord,
      resolveUserLocation geocoder "abc" = geocoder "abc") := by
  have habc : parseLocation "abc" = none := rfl
  have hval1 : renderVal false ['1', '6'] (some ['5', '0', '6', '2']) = 16.5062 := by
    simp [renderVal, numValue, show digitsToNat ['1', '6'] = 16 from rfl,
      show digitsToNat ['5', '0', '6', '2'] = 5062 from rfl]
    norm_num
  have hval2 : renderVal false ['8', '0'] (some ['6', '4', '8', '0']) = 80.6480 := by
    simp [renderVal, numValue, show digitsToNat ['8', '0'] = 80 from rfl,
      show digitsToNat ['6', '4', '8', '0'] = 6480 from rfl]
    norm_num
  refine ⟨?_, ?_, ?_, habc, ?_⟩
  · intro ws1 ws2 ws3 neg1 neg2 d1 d2 f1 f2 hw1 hw2 hw3 hd1 hdd1 hf1 hd2 hdd2 hf2
    exact parseLocList_pattern ws1 ws2 ws3 hw1 hw2 hw3 neg1 neg2 d1 d2 f1 f2
      hd1 hdd1 hf1 hd2 hdd2 hf2
  · have hlist : "16.5062,80.6480".toList =
        [] ++ (renderNum false ['1', '6'] (some ['5', '0', '6', '2']) ++
          (',' :: ([] ++ (renderNum false ['8', '0'] (some ['6', '4', '8', '0']) ++ [])))) :=
      rfl
    have h := parseLocList_pattern [] [] [] (by simp) (by simp) (by simp)
      false false ['1', '6'] ['8', '0'] (some ['5', '0', '6', '2'])
      (some ['6', '4', '8', '0']) (by simp) (by decide) (by decide)
      (by simp) (by decide) (by decide)
    rw [parseLocation, hlist, h, hval1, hval2]
  · have hlist : "16.5062, 80.6480".toList =
        [] ++ (renderNum false ['1', '6'] (some ['5', '0', '6', '2']) ++
          (',' :: ([' '] ++ (renderNum false ['8', '0'] (some ['6', '4', '8', '0']) ++ [])))) :=
      rfl
    have h := parseLocList_pattern [] [' '] [] (by simp) (by decide) (by simp)
      false false ['1', '6'] ['8', '0'] (some ['5', '0', '6', '2'])
      (some ['6', '4', '8', '0']) (by simp) (by decide) (by decide)
      (by simp) (by decide) (by decide)
    rw [parseLocation, hlist, h, hval1, hval2]
  · intro geocoder
    simp [resolveUserLocation, habc]

/-- Witness for C4's general clause at a concrete token: `" 1.5,2 "`. -/
theorem C4_location_token_parsing_witness :
    parseLocList
        ([' '] ++ (renderNum false ['1'] (some ['5']) ++
          (',' :: ([] ++ (renderNum false ['2'] none ++ [' '])))))
      = some (renderVal false ['1'] (some ['5']), renderVal false ['2'] none) :=
  C4_location_token_parsing.1 [' '] [] [' '] false false ['1'] ['2']
    (some ['5']) none (by decide) (by simp) (by decide) (by simp) (by decide)
    (by decide) (by simp) (by decide) (by simp)

/-- Counterexample to claim C6: two identical lookups with a configured API
key perform two upstream provider calls, not exactly one — `geocodeLocation`
has no cache at all. -/
theorem C6_counterexample :
    upstreamCalls true (fun _ => some ⟨0, 0⟩) ["Benz Circle", "Benz Circle"] = 2 ∧
    upstreamCalls true (fun _ => some ⟨0, 0⟩) ["Benz Circle", "Benz Circle"] ≠ 1 := by
  exact ⟨rfl, by decide⟩

/-- Claim C6 amended: `geocodeLocation` is cache-free, so `n` lookups of the
same name perform exactly `n` upstream calls (one per lookup when the API key
is configured); since nothing is ever cached, a provider failure is trivially
not cached and the next lookup retries upstream. -/
theorem C6_amended_one_call_per_lookup (provider : String → Option Coord)
    (name : String) (n : ℕ) :
    upstreamCalls true provider (List.replicate n name) = n ∧
    geocodeLocation true provider name = (provider name, 1) := by
  constructor
  · simp [upstreamCalls, List.map_replicate, geocodeLocation, List.sum_replicate]
  · rfl

/-- Counterexample to claim C7: with a valid email, the unparseable location
token `abc` and a failing geocoder, the handler's catch-all produces the
generic 500 `Internal Server Error` response — not a structured
"could not determine location" error. -/
theorem C7_counterexample :
    checkAvailability taxiDist (fun _ => none) 1.5 [] "a@b.co" "abc"
      = Resp.serverError "Internal Server Error" := rfl

/-- Claim C7 amended: whenever the location token neither parses as
coordinates nor geocodes, the request aborts, but it is surfaced as the
generic catch-all 500 `Internal Server Error` response rather than a
structured "could not determine location" error. -/
theorem C7_amended_geocode_failure_is_generic_500 (dist : Dist)
    (geocoder : String → Option Coord) (radiusKm : ℚ) (buses : List Bus)
    (email location : String)
    (he : email ≠ "") (hl : location ≠ "") (hv : validateEmail email = true)
    (hp : parseLocation location = none) (hg : geocoder location = none) :
    checkAvailability dist geocoder radiusKm buses email location
      = Resp.serverError "Internal Server Error" := by
  simp [checkAvailability, he, hl, hv, resolveUserLocation, hp, hg]

/-- Witness for the amended C7 at a concrete input. -/
theorem C7_amended_geocode_failure_is_generic_500_witness :
    checkAvailability taxiDist (fun _ => none) 1.5 [c1Bus] "x@y.zz" "abc"
      = Resp.serverError "Internal Server Error" :=
  C7_amended_geocode_failure_is_generic_500 taxiDist (fun _ => none) 1.5
    [c1Bus] "x@y.zz" "abc" (by decide) (by decide) (by decide) rfl rfl

/-- Claim C10: in the stop-matching availability check, the `available` flag
is true iff some matched bus has `capacity` (default 0) strictly greater than
`currentOccupancy` (default 0); consequently a request can report
unavailable even though buses were matched within the radius — here a full
bus is matched and the flag is false. -/
theorem C10_available_iff_matched_bus_with_capacity :
    (∀ (dist : Dist) (u : Coord) (r : ℚ) (stops : List StopRec),
      availableFlag dist u r stops = true ↔
        ∃ b ∈ availabilityBuses dist u r stops,
          b.currentOccupancy.getD 0 < b.capacity.getD 0) ∧
    availabilityBuses taxiDist ⟨0, 0⟩ 1000 [c10Stop] ≠ [] ∧
    availableFlag taxiDist ⟨0, 0⟩ 1000 [c10Stop] = false := by
  refine ⟨?_, ?_, ?_⟩
  · intro dist u r stops
    simp [availableFlag, List.any_eq_true]
  · norm_num [availabilityBuses, matchedEntries, mapSet, c10Stop, taxiDist]
  · norm_num [availableFlag, availabilityBuses, matchedEntries, mapSet, c10Stop,
      taxiDist]

end BusTransport
